import Mathlib

/-!
# Verification of the daliuge management layer against its specification

Shallow embedding, in Lean 4, of the Python sources under `dfms/`:
`manager/node_manager.py`, `manager/data_object_manager.py`,
`manager/daemon.py`, `manager/cmdline.py`, `luigi_int.py` and
`apps/dynlib.py`, together with theorems settling the specification claims
about them.

Python dictionaries keyed by strings are embedded as association lists with
an explicit lookup function; Python exceptions are embedded as the error
side of `Except`; side effects relevant to the claims (process signals,
descriptor opens/closes, spawns) are embedded as explicit event traces.
-/

namespace Daliuge

variable {σ γ π α β : Type}

/-- Error kinds raised (or, for `noTemplate`, merely named by the spec) by the
manager layer.  `noSession` embeds `NoSessionException`,
`sessionAlreadyExists` embeds `SessionAlreadyExistsException`, `keyError`
embeds Python's built-in `KeyError` from a direct dictionary access,
`importError`/`attributeError` embed the built-in errors raised by
`importlib.import_module`/`getattr`, `invalidLibrary` embeds the
`InvalidDropException` raised by `dynlib.py`, and `noTemplate` is the error
kind the spec postulates for unknown template names (no code raises it). -/
inductive DfmsError
  | noSession (sessionId : String)
  | sessionAlreadyExists (sessionId : String)
  | keyError (key : String)
  | importError (moduleName : String)
  | attributeError (attrName : String)
  | invalidLibrary (msg : String)
  | noTemplate (name : String)
  | genericError (msg : String)
  deriving DecidableEq, Repr

/-- Python dictionary lookup (`d[k]` / `k in d`) on an association list. -/
def pyLookup (key : String) : List (String × σ) → Option σ
  | [] => none
  | (k, v) :: rest => if k = key then some v else pyLookup key rest

/-- Python `dict.pop(k)`: the association list without the key. -/
def pyPop (key : String) (l : List (String × σ)) : List (String × σ) :=
  l.filter (fun kv => kv.1 ≠ key)

/-- Updating the value stored under a key (the effect, on the embedded map, of
mutating the session object held under that key). -/
def pyUpdate (key : String) (v : σ) (l : List (String × σ)) : List (String × σ) :=
  l.map (fun kv => if kv.1 = key then (kv.1, v) else kv)

/-! ## `dfms/luigi_int.py`: the Luigi driving task (claim C2) -/

/-- Embeds `dfms.ddap_protocol.ExecutionMode`. -/
inductive ExecutionMode
  | DROP
  | EXTERNAL
  deriving DecidableEq, Repr

/-- Embeds `dfms.ddap_protocol.DOStates` (data-drop statuses). -/
inductive DOState
  | INITIALIZED
  | WRITING
  | COMPLETED
  | ERROR
  | EXPIRED
  | DELETED
  deriving DecidableEq, Repr

/-- The attributes of an upstream (input) data object that
`RunDataObjectTask` consults. -/
structure InputDO where
  uid : String
  executionMode : ExecutionMode
  deriving DecidableEq, Repr

/-- The attributes of the data object a `RunDataObjectTask` drives:
`isApp` embeds `isinstance(do, AppDataObject)`. -/
structure DataObj where
  oid : String
  uid : String
  isApp : Bool
  inputs : List InputDO
  expirationDate : Int
  deriving DecidableEq, Repr

/-- Embeds `RunDataObjectTask.__init__`: `self.execDO` is set to `True` exactly when
the data object is an `AppDataObject` and the loop over `do.inputs` finds an
input whose `executionMode` is `EXTERNAL`. -/
def execDO (d : DataObj) : Bool :=
  d.isApp && d.inputs.any (fun i => i.executionMode = ExecutionMode.EXTERNAL)

/-- Embeds `setEvtOnCompleted` (the `status` subscription installed by
`RunDataObjectTask.__init__` in the monitoring case): the event is set
exactly when the observed status is `COMPLETED`. -/
def setEvtOnCompleted (status : DOState) : Bool :=
  status = DOState.COMPLETED

/-- Observable actions of `RunDataObjectTask.run`. -/
inductive TaskEv
  | trigger (uid : String)
  | wait (timeout : Option Int)
  deriving DecidableEq, Repr

/-- Embeds `RunDataObjectTask.run`: when `execDO` the task calls
`self.data_obj.dataObjectCompleted(inputDO.uid)` for each input; otherwise it
computes a timeout from a finite `expirationDate` (`None` when the
expiration date is `-1`) and waits on the completion event. -/
def RunDataObjectTask_run (d : DataObj) (now : Int) : List TaskEv :=
  if execDO d then
    d.inputs.map (fun i => TaskEv.trigger i.uid)
  else
    let timeout : Option Int :=
      if d.expirationDate ≠ -1 then some (d.expirationDate - now) else none
    [TaskEv.wait timeout]

/-! ## `dfms/manager/node_manager.py` and `data_object_manager.py`
(claims C1, C7, C8)

`Session` (defined in `dfms/manager/session.py`, which is outside the
sources at hand) is kept abstract: the managers are parametrised over the
session state type `σ`, the graph-spec type `γ` and the template-parameter
type `π`, and the session methods the managers delegate to are gathered in a
`SessionOps` record.  The claims settled here only concern the managers'
own session-map handling, which is fully determined by the sources. -/

/-- The `Session` methods `node_manager.py` / `data_object_manager.py`
delegate to.  Mutating methods may fail (e.g. `Session.addGraphSpec` raises
`InvalidGraphException`); queries are pure. -/
structure SessionOps (σ γ : Type) where
  status : σ → Nat
  addGraphSpec : σ → γ → Except DfmsError σ
  linkGraphParts : σ → String → String → Nat → Except DfmsError σ
  deploy : σ → List String → Except DfmsError σ
  uris : σ → List (String × String)
  getGraph : σ → List (String × γ)
  getGraphStatus : σ → List (String × Nat)
  graphSize : σ → Nat
  destroy : σ → σ

/-- Embeds `NodeManager`: its `_sessions` dictionary, keyed by session id. -/
structure NodeManager (σ : Type) where
  sessions : List (String × σ)
  deriving DecidableEq, Repr

/-- Embeds `NodeManager._check_session_id`: raise `NoSessionException` when the id
is not a key of `self._sessions`. -/
def check_session_id (nm : NodeManager σ) (sessionId : String) :
    Except DfmsError Unit :=
  if (pyLookup sessionId nm.sessions).isSome then Except.ok ()
  else Except.error (DfmsError.noSession sessionId)

/-- Embeds `NodeManager.createSession`. -/
def NM_createSession (mk : String → σ) (nm : NodeManager σ) (sessionId : String) :
    Except DfmsError (NodeManager σ) :=
  if (pyLookup sessionId nm.sessions).isSome then
    Except.error (DfmsError.sessionAlreadyExists sessionId)
  else
    Except.ok ⟨nm.sessions ++ [(sessionId, mk sessionId)]⟩

/-- Embeds `NodeManager.getSessionStatus`. -/
def NM_getSessionStatus (ops : SessionOps σ γ) (nm : NodeManager σ)
    (sessionId : String) : Except DfmsError (NodeManager σ × Nat) :=
  match check_session_id nm sessionId with
  | Except.error e => Except.error e
  | Except.ok _ =>
    match pyLookup sessionId nm.sessions with
    | some s => Except.ok (nm, ops.status s)
    | none => Except.error (DfmsError.keyError sessionId)

/-- Embeds `NodeManager.addGraphSpec`. -/
def NM_addGraphSpec (ops : SessionOps σ γ) (nm : NodeManager σ)
    (sessionId : String) (graphSpec : γ) : Except DfmsError (NodeManager σ) :=
  match check_session_id nm sessionId with
  | Except.error e => Except.error e
  | Except.ok _ =>
    match pyLookup sessionId nm.sessions with
    | some s =>
      match ops.addGraphSpec s graphSpec with
      | Except.ok s' => Except.ok ⟨pyUpdate sessionId s' nm.sessions⟩
      | Except.error e => Except.error e
    | none => Except.error (DfmsError.keyError sessionId)

/-- Embeds `NodeManager.linkGraphParts`. -/
def NM_linkGraphParts (ops : SessionOps σ γ) (nm : NodeManager σ)
    (sessionId lhOID rhOID : String) (linkType : Nat) :
    Except DfmsError (NodeManager σ) :=
  match check_session_id nm sessionId with
  | Except.error e => Except.error e
  | Except.ok _ =>
    match pyLookup sessionId nm.sessions with
    | some s =>
      match ops.linkGraphParts s lhOID rhOID linkType with
      | Except.ok s' => Except.ok ⟨pyUpdate sessionId s' nm.sessions⟩
      | Except.error e => Except.error e
    | none => Except.error (DfmsError.keyError sessionId)

/-- Embeds `NodeManager.getGraph`. -/
def NM_getGraph (ops : SessionOps σ γ) (nm : NodeManager σ) (sessionId : String) :
    Except DfmsError (NodeManager σ × List (String × γ)) :=
  match check_session_id nm sessionId with
  | Except.error e => Except.error e
  | Except.ok _ =>
    match pyLookup sessionId nm.sessions with
    | some s => Except.ok (nm, ops.getGraph s)
    | none => Except.error (DfmsError.keyError sessionId)

/-- Embeds `NodeManager.getGraphStatus`. -/
def NM_getGraphStatus (ops : SessionOps σ γ) (nm : NodeManager σ)
    (sessionId : String) : Except DfmsError (NodeManager σ × List (String × Nat)) :=
  match check_session_id nm sessionId with
  | Except.error e => Except.error e
  | Except.ok _ =>
    match pyLookup sessionId nm.sessions with
    | some s => Except.ok (nm, ops.getGraphStatus s)
    | none => Except.error (DfmsError.keyError sessionId)

/-- Embeds `NodeManager.deploySession`: after the session-id check, deploy and then
collect the (uid, uri) pairs from the root traversal (DLM registration is a
side effect on the DLM, not on the session map, and is not embedded). -/
def NM_deploySession (ops : SessionOps σ γ) (nm : NodeManager σ)
    (sessionId : String) (completedDrops : List String) :
    Except DfmsError (NodeManager σ × List (String × String)) :=
  match check_session_id nm sessionId with
  | Except.error e => Except.error e
  | Except.ok _ =>
    match pyLookup sessionId nm.sessions with
    | some s =>
      match ops.deploy s completedDrops with
      | Except.ok s' => Except.ok (⟨pyUpdate sessionId s' nm.sessions⟩, ops.uris s')
      | Except.error e => Except.error e
    | none => Except.error (DfmsError.keyError sessionId)

/-- Embeds `NodeManager.destroySession`: check, `pop` the session from the map and
destroy it (the destroyed session object is dropped). -/
def NM_destroySession (ops : SessionOps σ γ) (nm : NodeManager σ)
    (sessionId : String) : Except DfmsError (NodeManager σ) :=
  match check_session_id nm sessionId with
  | Except.error e => Except.error e
  | Except.ok _ =>
    match pyLookup sessionId nm.sessions with
    | some s =>
      let _ := ops.destroy s
      Except.ok ⟨pyPop sessionId nm.sessions⟩
    | none => Except.error (DfmsError.keyError sessionId)

/-- Embeds `NodeManager.getGraphSize`: `len(session._graph)`. -/
def NM_getGraphSize (ops : SessionOps σ γ) (nm : NodeManager σ)
    (sessionId : String) : Except DfmsError (NodeManager σ × Nat) :=
  match check_session_id nm sessionId with
  | Except.error e => Except.error e
  | Except.ok _ =>
    match pyLookup sessionId nm.sessions with
    | some s => Except.ok (nm, ops.graphSize s)
    | none => Except.error (DfmsError.keyError sessionId)

/-- Splitting a character list on `'.'` (the recursion behind Python's
`split('.')`): every separator occurrence delimits a (possibly empty)
part, so the result is always non-empty. -/
def splitDotChars : List Char → List (List Char)
  | [] => [[]]
  | c :: rest =>
    if c = '.' then [] :: splitDotChars rest
    else
      match splitDotChars rest with
      | [] => [[c]]
      | p :: ps => (c :: p) :: ps

/-- Python's `s.split('.')`. -/
def pySplitDot (s : String) : List String :=
  (splitDotChars s.data).map String.mk

/-- Python's `'.'.join(parts)`. -/
def pyJoinDot : List String → String
  | [] => ""
  | [p] => p
  | p :: rest => p ++ "." ++ pyJoinDot rest

/-- The Python module environment seen by `importlib` and `getattr`:
module name → (attribute name → template function). -/
def PyEnv (π γ : Type) := List (String × List (String × (π → γ)))

/-- Embeds `importlib.import_module`: unknown module names raise `ImportError`. -/
def importModule (env : PyEnv π γ) (name : String) :
    Except DfmsError (List (String × (π → γ))) :=
  match pyLookup name env with
  | some m => Except.ok m
  | none => Except.error (DfmsError.importError name)

/-- Embeds `getattr(module, name)`: unknown attributes raise `AttributeError`. -/
def getattrFn (m : List (String × (π → γ))) (name : String) :
    Except DfmsError (π → γ) :=
  match pyLookup name m with
  | some f => Except.ok f
  | none => Except.error (DfmsError.attributeError name)

/-- Embeds `NodeManager.materializeTemplate`: check the session id, split the
fully-qualified template name on dots, import the module named by all parts
but the last, take the last part as the function via `getattr`, invoke it on
the parameters and add the resulting graph spec through
`self.addGraphSpec`. -/
def NM_materializeTemplate (ops : SessionOps σ γ) (env : PyEnv π γ)
    (nm : NodeManager σ) (tpl sessionId : String) (tplParams : π) :
    Except DfmsError (NodeManager σ) :=
  match check_session_id nm sessionId with
  | Except.error e => Except.error e
  | Except.ok _ =>
    let parts := pySplitDot tpl
    match importModule env (pyJoinDot parts.dropLast) with
    | Except.error e => Except.error e
    | Except.ok m =>
      match parts.getLast? with
      | none => Except.error (DfmsError.attributeError tpl)
      | some last =>
        match getattrFn m last with
        | Except.error e => Except.error e
        | Except.ok f => NM_addGraphSpec ops nm sessionId (f tplParams)

/-- Embeds `DataObjectManager`: its `_sessions` dictionary.  Unlike `NodeManager`
its methods perform no session-id validation. -/
structure DataObjectManager (σ : Type) where
  sessions : List (String × σ)
  deriving DecidableEq, Repr

/-- Embeds `DataObjectManager.getSessionStatus`: a direct
`self._sessions[sessionId]` access; a missing key raises `KeyError`. -/
def DOM_getSessionStatus (ops : SessionOps σ γ) (dom : DataObjectManager σ)
    (sessionId : String) : Except DfmsError (DataObjectManager σ × Nat) :=
  match pyLookup sessionId dom.sessions with
  | some s => Except.ok (dom, ops.status s)
  | none => Except.error (DfmsError.keyError sessionId)

/-- Embeds `DataObjectManager.addGraphSpec`: direct dictionary access, no
validation. -/
def DOM_addGraphSpec (ops : SessionOps σ γ) (dom : DataObjectManager σ)
    (sessionId : String) (graphSpec : γ) :
    Except DfmsError (DataObjectManager σ) :=
  match pyLookup sessionId dom.sessions with
  | some s =>
      match ops.addGraphSpec s graphSpec with
      | Except.ok s' => Except.ok ⟨pyUpdate sessionId s' dom.sessions⟩
      | Except.error e => Except.error e
  | none => Except.error (DfmsError.keyError sessionId)

/-- Embeds `DataObjectManager.destroySession`: `self._sessions.pop(sessionId)`
without validation; a missing key raises `KeyError`. -/
def DOM_destroySession (ops : SessionOps σ γ) (dom : DataObjectManager σ)
    (sessionId : String) : Except DfmsError (DataObjectManager σ) :=
  match pyLookup sessionId dom.sessions with
  | some s =>
      let _ := ops.destroy s
      Except.ok ⟨pyPop sessionId dom.sessions⟩
  | none => Except.error (DfmsError.keyError sessionId)

/-! ### `_functionAsTemplate` (claim C8) -/

/-- A template argument descriptor
(the dictionaries put into the `args` list). -/
structure TplArg (α : Type) where
  name : String
  default : Option α
  deriving DecidableEq, Repr

/-- A template descriptor as returned by `_functionAsTemplate`. -/
structure Template (α : Type) where
  name : String
  args : List (TplArg α)
  deriving DecidableEq, Repr

/-- Python's `enumerate`, starting at a given index. -/
def pyEnumerate (start : Nat) : List β → List (Nat × β)
  | [] => []
  | a :: l => (start, a) :: pyEnumerate (start + 1) l

/-- Embeds `_functionAsTemplate`: given the introspected declaration of a template
function (module name, function name, argument names in declaration order,
and the default values of the trailing arguments as returned by
`inspect.getargspec` — the empty list embeds `defaults` being `None`), build
the template descriptor.  The defaults list is reversed and matched against
the reversed argument list; an index beyond the reversed defaults marks a
mandatory argument. -/
def functionAsTemplate (moduleName funcName : String) (args : List String)
    (defaults : List α) : Template α :=
  let ds := defaults.reverse
  let argsList := (pyEnumerate 0 args.reverse).map (fun p =>
    match ds[p.1]? with
    | none => TplArg.mk p.2 none
    | some d => TplArg.mk p.2 (some d))
  ⟨moduleName ++ "." ++ funcName, argsList⟩

/-! ## `dfms/apps/dynlib.py`: the dynamic-library app adapter
(claims C3, C4, C10)

Byte buffers are embedded as `List Nat`; C callback function pointers are
embedded as Lean functions stored in the structure fields. -/

/-- An input data drop as used by `DynlibApp.run`: `openD` is the
descriptor its `open()` returns for this run, `readD` is its
`read(descriptor, n)` operation. -/
structure InDrop where
  uid : String
  oid : String
  name : String
  status : Nat
  openD : Nat
  readD : Nat → Nat → List Nat

/-- An output data drop as used by `DynlibAppBase`: `write(data)` returns
the number of bytes written. -/
structure OutDrop where
  uid : String
  oid : String
  name : String
  write : List Nat → Nat

/-- The C `dlg_input_info` structure (`CDlgInput`): identification fields
plus the `read` callback, which returns the bytes deposited into the
caller's buffer. -/
structure CDlgInput where
  uid : String
  oid : String
  name : String
  status : Nat
  read : Nat → List Nat

/-- The C `dlg_output_info` structure (`CDlgOutput`): identification fields
plus the `write(buf, n)` callback. -/
structure CDlgOutput where
  uid : String
  oid : String
  name : String
  write : List Nat → Nat → Nat

/-- Embeds `DynlibAppBase._write_to_output`: the write callback body,
`output_write(buf[:n])`. -/
def write_to_output (output_write : List Nat → Nat) (buf : List Nat) (n : Nat) : Nat :=
  output_write (buf.take n)

/-- Embeds `DynlibAppBase._to_c_output`: build the C output structure for an output
drop, wiring its `write` callback through `_write_to_output` to the drop's
own `write`. -/
def to_c_output (o : OutDrop) : CDlgOutput :=
  ⟨o.uid, o.oid, o.name, write_to_output o.write⟩

/-- The output-related fields of the C `dlg_app_info` structure together
with the Python-side `_c_outputs` backing list. -/
structure CDlgAppOutputs where
  c_outputs : List CDlgOutput
  outputs : List CDlgOutput
  n_outputs : Nat

/-- The output state right after `DynlibAppBase.initialize`: no outputs, a
NULL `outputs` pointer (embedded as the empty array), `n_outputs = 0`. -/
def initOutputsState : CDlgAppOutputs := ⟨[], [], 0⟩

/-- Embeds `DynlibAppBase.addOutput`: build the C output structure, grow the
backing array by one with the new output in the last slot, point
`app.outputs` at it and increment `app.n_outputs`. -/
def addOutput (st : CDlgAppOutputs) (o : OutDrop) : CDlgAppOutputs :=
  let output := to_c_output o
  let outputs :=
    if st.n_outputs = 0 then [output]
    else st.c_outputs ++ [output]
  ⟨outputs, outputs, st.n_outputs + 1⟩

/-- The `_read` helper closed over `i.read` and the descriptor inside
`DynlibApp.run`: the C input structure for an input drop, whose `read`
callback reads from the drop through the given descriptor (the bytes
returned are the bytes `memmove`d into the caller's buffer). -/
def to_c_input (i : InDrop) (desc : Nat) : CDlgInput :=
  ⟨i.uid, i.oid, i.name, i.status, fun n => i.readD desc n⟩

/-- Descriptor-level events of a `DynlibApp.run` invocation. -/
inductive IOEv
  | openEv (uid : String) (desc : Nat)
  | runNative
  | closeEv (uid : String) (desc : Nat)
  deriving DecidableEq, Repr

/-- Embeds `DynlibApp.run`: open every input collecting `(drop, descriptor)` pairs,
build the C input structures with reads routed through the obtained
descriptors, call the native `run` entry point, and close every opened
descriptor in a `finally` block — the close events are emitted whether or
not the native run raised an exception, which then propagates. -/
def DynlibApp_run (inputs : List InDrop)
    (native : List CDlgInput → Except String Unit) :
    Except String Unit × List IOEv :=
  let opened := inputs.map (fun i => (i, i.openD))
  let cinputs := opened.map (fun p => to_c_input p.1 p.2)
  let res := native cinputs
  (res,
    opened.map (fun p => IOEv.openEv p.1.uid p.2)
      ++ [IOEv.runNative]
      ++ opened.map (fun p => IOEv.closeEv p.1.uid p.2))

/-- A loaded shared object as seen by `DynlibAppBase.initialize`: which of
the entry points resolve (`hasattr(self.lib, fname)`), and the result of
calling `init` on the parameter vector. -/
structure PyLib where
  hasInit : Bool
  hasRun : Bool
  hasDataWritten : Bool
  hasDropCompleted : Bool
  initFn : List (String × String) → Int

/-- Embeds `DynlibAppBase.initialize` (embedded as `dynlibInit`): fail with
`InvalidDropException` when no `lib` keyword is given; resolve the library
name through `ctypes.util.find_library` falling back to the name itself;
load it (`LoadLibrary` failures are `OSError`s, not `InvalidDropException`);
fail when the `init` or `run` entry point is missing; pass the remaining
keyword arguments to the library's `init` and fail when it returns nonzero.
The `data_written` and `drop_completed` entry points are never consulted. -/
def dynlibInit (kwargs : List (String × String))
    (find_library : String → Option String)
    (loadLibrary : String → Option PyLib) : Except DfmsError PyLib :=
  match pyLookup "lib" kwargs with
  | none => Except.error (DfmsError.invalidLibrary "library not specified")
  | some libname =>
    let lib := (find_library libname).getD libname
    match loadLibrary lib with
    | none => Except.error (DfmsError.genericError "OSError")
    | some l =>
      if l.hasInit = false then
        Except.error (DfmsError.invalidLibrary "missing entry point init")
      else if l.hasRun = false then
        Except.error (DfmsError.invalidLibrary "missing entry point run")
      else if l.initFn (pyPop "lib" kwargs) ≠ 0 then
        Except.error (DfmsError.invalidLibrary "app failed during initialization")
      else Except.ok l

/-- Decide whether a result is an `InvalidDropException`
(spec name: `InvalidLibrary`). -/
def isInvalidLibraryErr : Except DfmsError PyLib → Bool
  | Except.error (DfmsError.invalidLibrary _) => true
  | _ => false

/-! ## `dfms/manager/daemon.py`: the daemon (claims C5, C6) -/

/-- The daemon's recorded child-manager processes, by pid, for the REST
start/info surface (`_nm_proc`, `_dim_proc`, `_mm_proc`). -/
structure DaemonProcs where
  nm_proc : Option Nat
  dim_proc : Option Nat
  mm_proc : Option Nat
  deriving DecidableEq, Repr

/-- Embeds `DfmsDaemon._rest_start_manager`: when a process is already recorded set
HTTP status 409 (Conflict) and return without calling the start method;
otherwise call it, which spawns the child and records its pid.  Result:
(recorded process, HTTP status override — `none` is the framework's default
success status, spawned pids). -/
def rest_start_manager (proc : Option Nat) (start_method : Unit → Nat) :
    Option Nat × Option Nat × List Nat :=
  match proc with
  | some p => (some p, some 409, [])
  | none =>
    let pid := start_method ()
    (some pid, none, [pid])

/-- Embeds `DfmsDaemon.rest_startNM`. -/
def rest_startNM (d : DaemonProcs) (newPid : Nat) :
    DaemonProcs × Option Nat × List Nat :=
  let r := rest_start_manager d.nm_proc (fun _ => newPid)
  ({ d with nm_proc := r.1 }, r.2.1, r.2.2)

/-- Embeds `DfmsDaemon.rest_startDIM`: reject a request without a JSON body
carrying a `nodes` list with HTTP 400 before consulting the recorded
process. -/
def rest_startDIM (d : DaemonProcs) (body : Option (List String)) (newPid : Nat) :
    DaemonProcs × Option Nat × List Nat :=
  match body with
  | none => (d, some 400, [])
  | some _ =>
    let r := rest_start_manager d.dim_proc (fun _ => newPid)
    ({ d with dim_proc := r.1 }, r.2.1, r.2.2)

/-- Embeds `DfmsDaemon.rest_startMM`. -/
def rest_startMM (d : DaemonProcs) (newPid : Nat) :
    DaemonProcs × Option Nat × List Nat :=
  let r := rest_start_manager d.mm_proc (fun _ => newPid)
  ({ d with mm_proc := r.1 }, r.2.1, r.2.2)

/-- Embeds `DfmsDaemon._rest_get_manager_info`: the recorded pid, or HTTP 404. -/
def rest_get_manager_info (proc : Option Nat) : Option Nat × Option Nat :=
  match proc with
  | some p => (some p, none)
  | none => (none, some 404)

/-- Process-control events of the daemon's shutdown path. -/
inductive SigEv
  | sigterm (pid : Nat)
  | join (pid : Nat) (timeout : Option Nat)
  | sigkill (pid : Nat)
  deriving DecidableEq, Repr

/-- A recorded child process as seen by `_stop_manager`: its pid and
whether `is_alive()` still holds after `terminate()` plus the timed
`join`. -/
structure ChildProc where
  pid : Nat
  aliveAfterTerm : Bool
  deriving DecidableEq, Repr

/-- Embeds `DfmsDaemon._stop_manager`: nothing happens when no process is
recorded; otherwise `terminate()` (SIGTERM), `join(timeout)`, then — only if
the child is still alive — SIGKILL and an untimed `join`; finally the
recorded slot is cleared. -/
def stop_manager (proc : Option ChildProc) (timeout : Nat) :
    Option ChildProc × List SigEv :=
  match proc with
  | none => (none, [])
  | some p =>
    (none,
      [SigEv.sigterm p.pid, SigEv.join p.pid (some timeout)]
        ++ (if p.aliveAfterTerm then [SigEv.sigkill p.pid, SigEv.join p.pid none]
            else []))

/-- The daemon's recorded children for the shutdown path. -/
structure DaemonChildren where
  nm_proc : Option ChildProc
  dim_proc : Option ChildProc
  mm_proc : Option ChildProc
  deriving DecidableEq, Repr

/-- Embeds `DfmsDaemon.stop`: with `timeout = 10`, stop the REST server (no child
process events) and then stop the NM, DIM and MM children in turn. -/
def daemon_stop (d : DaemonChildren) : DaemonChildren × List SigEv :=
  let timeout := 10
  let rnm := stop_manager d.nm_proc timeout
  let rdim := stop_manager d.dim_proc timeout
  let rmm := stop_manager d.mm_proc timeout
  (⟨rnm.1, rdim.1, rmm.1⟩, rnm.2 ++ rdim.2 ++ rmm.2)

/-- Steps performed by the function a child manager process is started
with. -/
inductive ChildStep
  | stopRestServer
  | installDefaultSigintHandler
  | installDefaultSigtermHandler
  | runManagerCmdline (kind : String)
  deriving DecidableEq, Repr

/-- The target function of the NM child process (`startNM`'s `f`): stop the
inherited REST server, install the default SIGINT and SIGTERM handlers, run
the manager command line. -/
def startNM_child_target : List ChildStep :=
  [ChildStep.stopRestServer, ChildStep.installDefaultSigintHandler,
   ChildStep.installDefaultSigtermHandler, ChildStep.runManagerCmdline "nm"]

/-- The target function of the DIM child process (`startDIM`'s `f`). -/
def startDIM_child_target : List ChildStep :=
  [ChildStep.stopRestServer, ChildStep.installDefaultSigintHandler,
   ChildStep.installDefaultSigtermHandler, ChildStep.runManagerCmdline "dim"]

/-- The target function of the MM child process (`startMM`'s `f`). -/
def startMM_child_target : List ChildStep :=
  [ChildStep.stopRestServer, ChildStep.installDefaultSigintHandler,
   ChildStep.installDefaultSigtermHandler, ChildStep.runManagerCmdline "mm"]

/-! ## `dfms/manager/cmdline.py`: the command-line layer (claim C9) -/

/-- The common command-line options consulted by `commonOptionsCheck` and
`start`.  `verbose`/`quiet` are occurrence counts (0 embeds the option being
absent). -/
structure CmdOptions where
  daemon : Bool
  stop : Bool
  status : Bool
  verbose : Nat
  quiet : Nat
  deriving DecidableEq, Repr

/-- Embeds `optparse.OptionParser.error`: prints the message and exits the process
with status 2 (documented behaviour of the Python standard library's
`optparse`, to which `commonOptionsCheck` delegates). -/
def parser_error : Except Nat Unit := Except.error 2

/-- Embeds `commonOptionsCheck`: `parser.error` on each mutually exclusive pair of
options. -/
def commonOptionsCheck (o : CmdOptions) : Except Nat Unit :=
  if o.daemon && o.stop then parser_error
  else if o.daemon && o.status then parser_error
  else if o.stop && o.status then parser_error
  else if decide (o.verbose ≠ 0) && decide (o.quiet ≠ 0) then parser_error
  else Except.ok ()

/-- Whether the launched server/manager run raises a runtime exception. -/
inductive ServerRun
  | completes
  | raises
  deriving DecidableEq, Repr

/-- Process outcome of a CLI invocation: an explicit `sys.exit`/`SystemExit`
code, or normal completion (process exit code 0). -/
inductive CliOutcome
  | exited (code : Nat)
  | completed
  deriving DecidableEq, Repr

/-- Outcome of `launchServer`: normal completion, or an uncaught runtime
exception — on which the Python interpreter exits with code 1. -/
def launchOutcome (server : ServerRun) : CliOutcome :=
  match server with
  | ServerRun.completes => CliOutcome.completed
  | ServerRun.raises => CliOutcome.exited 1

/-- Embeds `cmdline.start`: run `commonOptionsCheck` (whose `parser.error` exits
with its code), then dispatch: daemonised launch, daemon stop (reads the pid
file and signals, then returns), status check
(`sys.exit(socket_is_listening is False)`), or direct launch. -/
def start (o : CmdOptions) (portListening : Bool) (server : ServerRun) :
    CliOutcome :=
  match commonOptionsCheck o with
  | Except.error code => CliOutcome.exited code
  | Except.ok _ =>
    if o.daemon then launchOutcome server
    else if o.stop then CliOutcome.completed
    else if o.status then CliOutcome.exited (if portListening then 0 else 1)
    else launchOutcome server

/-- Decidable equality of `Except` results, so that concrete runs can be
checked by evaluation. -/
instance {ε α : Type} [DecidableEq ε] [DecidableEq α] : DecidableEq (Except ε α) :=
  fun a b =>
  match a, b with
  | Except.error e, Except.error e' =>
    if h : e = e' then Decidable.isTrue (congrArg Except.error h)
    else Decidable.isFalse (fun hh => h (by injection hh))
  | Except.error _, Except.ok _ => Decidable.isFalse (fun hh => Except.noConfusion hh)
  | Except.ok _, Except.error _ => Decidable.isFalse (fun hh => Except.noConfusion hh)
  | Except.ok a, Except.ok a' =>
    if h : a = a' then Decidable.isTrue (congrArg Except.ok h)
    else Decidable.isFalse (fun hh => h (by injection hh))

/-- A trivial session implementation, instantiating the abstract session
parameter of the managers in concrete runs. -/
def unitOps : SessionOps Unit Unit where
  status := fun _ => 0
  addGraphSpec := fun s _ => Except.ok s
  linkGraphParts := fun s _ _ _ => Except.ok s
  deploy := fun s _ => Except.ok s
  uris := fun _ => []
  getGraph := fun _ => []
  getGraphStatus := fun _ => []
  graphSize := fun _ => 0
  destroy := fun s => s

end Daliuge

/-! ## Claim theorems -/

namespace Daliuge

variable {σ γ π α β : Type}

theorem pyLookup_pyPop (key : String) (l : List (String × σ)) :
    pyLookup key (pyPop key l) = none := by
  induction l with
  | nil => rfl
  | cons kv rest ih =>
    by_cases h : kv.1 = key
    · simpa [pyPop, h] using ih
    · simpa [pyPop, pyLookup, h] using ih

/-- With an absent session id, every validated `NodeManager` operation fails
with `NoSessionException` (and, the embedding being state-passing, produces
no new session map: the map is unchanged). -/
theorem NM_ops_noSession (ops : SessionOps σ γ) (env : PyEnv π γ)
    (nm : NodeManager σ) (sessionId tpl lhOID rhOID : String) (linkType : Nat)
    (g : γ) (completedDrops : List String) (tplParams : π)
    (h : pyLookup sessionId nm.sessions = none) :
    NM_getSessionStatus ops nm sessionId = Except.error (DfmsError.noSession sessionId)
    ∧ NM_addGraphSpec ops nm sessionId g = Except.error (DfmsError.noSession sessionId)
    ∧ NM_linkGraphParts ops nm sessionId lhOID rhOID linkType
        = Except.error (DfmsError.noSession sessionId)
    ∧ NM_getGraph ops nm sessionId = Except.error (DfmsError.noSession sessionId)
    ∧ NM_getGraphStatus ops nm sessionId = Except.error (DfmsError.noSession sessionId)
    ∧ NM_deploySession ops nm sessionId completedDrops
        = Except.error (DfmsError.noSession sessionId)
    ∧ NM_destroySession ops nm sessionId = Except.error (DfmsError.noSession sessionId)
    ∧ NM_getGraphSize ops nm sessionId = Except.error (DfmsError.noSession sessionId)
    ∧ NM_materializeTemplate ops env nm tpl sessionId tplParams
        = Except.error (DfmsError.noSession sessionId) := by
  refine ⟨?_, ?_, ?_, ?_, ?_, ?_, ?_, ?_, ?_⟩ <;>
    simp [NM_getSessionStatus, NM_addGraphSpec, NM_linkGraphParts, NM_getGraph,
      NM_getGraphStatus, NM_deploySession, NM_destroySession, NM_getGraphSize,
      NM_materializeTemplate, check_session_id, h]

/-- Claim C2: For an application drop, the Luigi task executes (rather than
monitors) exactly when some input has `executionMode == EXTERNAL`; in that
case `run` invokes the completion trigger exactly once per input (in input
order) and never waits; otherwise `run` performs a single wait whose timeout
is `expirationDate - now` when the expiration date is finite and infinite
(`none`) otherwise, and the installed status subscription fires exactly on
`COMPLETED`. -/
theorem C2_external_execution (d : DataObj) (now : Int) (happ : d.isApp = true) :
    (execDO d = true ↔ ∃ i ∈ d.inputs, i.executionMode = ExecutionMode.EXTERNAL)
    ∧ (execDO d = true →
        RunDataObjectTask_run d now = d.inputs.map (fun i => TaskEv.trigger i.uid)
        ∧ ∀ t, TaskEv.wait t ∉ RunDataObjectTask_run d now)
    ∧ (execDO d = false →
        (∀ u, TaskEv.trigger u ∉ RunDataObjectTask_run d now)
        ∧ RunDataObjectTask_run d now =
            [TaskEv.wait (if d.expirationDate ≠ -1
                          then some (d.expirationDate - now) else none)])
    ∧ (∀ s, setEvtOnCompleted s = true ↔ s = DOState.COMPLETED) := by
  refine ⟨?_, ?_, ?_, ?_⟩
  · simp [execDO, happ, List.any_eq_true, decide_eq_true_iff]
  · intro hexec
    constructor
    · simp [RunDataObjectTask_run, hexec]
    · intro t hmem
      simp only [RunDataObjectTask_run, hexec, if_true] at hmem
      rcases List.mem_map.mp hmem with ⟨i, _, hi⟩
      exact TaskEv.noConfusion hi
  · intro hexec
    constructor
    · intro u hmem
      simp only [RunDataObjectTask_run, hexec] at hmem
      simp at hmem
    · simp [RunDataObjectTask_run, hexec]
  · intro s
    simp [setEvtOnCompleted, decide_eq_true_iff]

/-- Witness for C2 at a concrete application drop with one `EXTERNAL` input
and one `DROP` input. -/
theorem C2_external_execution_witness :
    (DataObj.mk "o" "u" true
        [⟨"i1", ExecutionMode.EXTERNAL⟩, ⟨"i2", ExecutionMode.DROP⟩] 5).isApp = true
    ∧ RunDataObjectTask_run
        (DataObj.mk "o" "u" true
          [⟨"i1", ExecutionMode.EXTERNAL⟩, ⟨"i2", ExecutionMode.DROP⟩] 5) 2 =
        [TaskEv.trigger "i1", TaskEv.trigger "i2"] := by
  have h := C2_external_execution
    (DataObj.mk "o" "u" true
      [⟨"i1", ExecutionMode.EXTERNAL⟩, ⟨"i2", ExecutionMode.DROP⟩] 5) 2 rfl
  exact ⟨rfl, (h.2.1 (by decide)).1⟩

/-- Claim C1, amended: On the `NodeManager`, every sessionId-taking operation
(`getSessionStatus`, `addGraphSpec`, `linkGraphParts`, `getGraph`,
`getGraphStatus`, `deploySession`, `destroySession`, `getGraphSize`,
`materializeTemplate`) fails with `NoSession` when the id is absent from the
session map, producing no state change; after a successful `destroySession`
the id is gone from the map, so every further operation on it fails with
`NoSession`.  On the `DataObjectManager`, however, the operations perform no
validation and a missing id surfaces as a Python `KeyError` from the direct
dictionary access, not as `NoSession`. -/
theorem C1_session_validation (ops : SessionOps σ γ) (env : PyEnv π γ)
    (nm : NodeManager σ) (dom : DataObjectManager σ)
    (sessionId tpl lhOID rhOID : String) (linkType : Nat) (g : γ)
    (completedDrops : List String) (tplParams : π) :
    (pyLookup sessionId nm.sessions = none →
      NM_getSessionStatus ops nm sessionId = Except.error (DfmsError.noSession sessionId)
      ∧ NM_addGraphSpec ops nm sessionId g = Except.error (DfmsError.noSession sessionId)
      ∧ NM_linkGraphParts ops nm sessionId lhOID rhOID linkType
          = Except.error (DfmsError.noSession sessionId)
      ∧ NM_getGraph ops nm sessionId = Except.error (DfmsError.noSession sessionId)
      ∧ NM_getGraphStatus ops nm sessionId = Except.error (DfmsError.noSession sessionId)
      ∧ NM_deploySession ops nm sessionId completedDrops
          = Except.error (DfmsError.noSession sessionId)
      ∧ NM_destroySession ops nm sessionId = Except.error (DfmsError.noSession sessionId)
      ∧ NM_getGraphSize ops nm sessionId = Except.error (DfmsError.noSession sessionId)
      ∧ NM_materializeTemplate ops env nm tpl sessionId tplParams
          = Except.error (DfmsError.noSession sessionId))
    ∧ (∀ nm', NM_destroySession ops nm sessionId = Except.ok nm' →
        pyLookup sessionId nm'.sessions = none
        ∧ NM_getSessionStatus ops nm' sessionId
            = Except.error (DfmsError.noSession sessionId)
        ∧ NM_addGraphSpec ops nm' sessionId g
            = Except.error (DfmsError.noSession sessionId)
        ∧ NM_linkGraphParts ops nm' sessionId lhOID rhOID linkType
            = Except.error (DfmsError.noSession sessionId)
        ∧ NM_getGraph ops nm' sessionId = Except.error (DfmsError.noSession sessionId)
        ∧ NM_getGraphStatus ops nm' sessionId
            = Except.error (DfmsError.noSession sessionId)
        ∧ NM_deploySession ops nm' sessionId completedDrops
            = Except.error (DfmsError.noSession sessionId)
        ∧ NM_destroySession ops nm' sessionId
            = Except.error (DfmsError.noSession sessionId)
        ∧ NM_getGraphSize ops nm' sessionId
            = Except.error (DfmsError.noSession sessionId)
        ∧ NM_materializeTemplate ops env nm' tpl sessionId tplParams
            = Except.error (DfmsError.noSession sessionId))
    ∧ (pyLookup sessionId dom.sessions = none →
      DOM_getSessionStatus ops dom sessionId = Except.error (DfmsError.keyError sessionId)
      ∧ DOM_addGraphSpec ops dom sessionId g = Except.error (DfmsError.keyError sessionId)
      ∧ DOM_destroySession ops dom sessionId
          = Except.error (DfmsError.keyError sessionId)) := by
  refine ⟨?_, ?_, ?_⟩
  · intro h
    exact NM_ops_noSession ops env nm sessionId tpl lhOID rhOID linkType g
      completedDrops tplParams h
  · intro nm' hdestroy
    have hpop : nm' = ⟨pyPop sessionId nm.sessions⟩ := by
      revert hdestroy
      unfold NM_destroySession check_session_id
      cases hl : pyLookup sessionId nm.sessions with
      | none => intro hdestroy; simp [hl] at hdestroy
      | some s =>
        intro hdestroy
        simp [hl] at hdestroy
        exact hdestroy.symm
    have hnone : pyLookup sessionId nm'.sessions = none := by
      rw [hpop]; exact pyLookup_pyPop sessionId nm.sessions
    exact ⟨hnone, NM_ops_noSession ops env nm' sessionId tpl lhOID rhOID linkType g
      completedDrops tplParams hnone⟩
  · intro h
    refine ⟨?_, ?_, ?_⟩ <;>
      simp [DOM_getSessionStatus, DOM_addGraphSpec, DOM_destroySession, h]

/-- Counterexample to C1 as stated: on the `DataObjectManager` (one of the
two managers the claim covers), an operation on an unknown session id fails
with a `KeyError`, not with `NoSession`. -/
theorem C1_counterexample :
    DOM_getSessionStatus unitOps (⟨[]⟩ : DataObjectManager Unit) "s"
        = Except.error (DfmsError.keyError "s")
    ∧ DOM_getSessionStatus unitOps (⟨[]⟩ : DataObjectManager Unit) "s"
        ≠ Except.error (DfmsError.noSession "s") := by
  exact ⟨rfl, by decide⟩

/-- Witness for C1 at concrete managers: a `NodeManager` with no sessions
rejects an operation with `NoSession`; destroying the only session empties
the map and further operations fail with `NoSession`. -/
theorem C1_session_validation_witness :
    NM_getSessionStatus unitOps (⟨[]⟩ : NodeManager Unit) "s"
        = Except.error (DfmsError.noSession "s")
    ∧ pyLookup "s" (NodeManager.sessions (⟨[]⟩ : NodeManager Unit)) = none
    ∧ NM_getSessionStatus unitOps (⟨[]⟩ : NodeManager Unit) "s"
        = Except.error (DfmsError.noSession "s")
    ∧ DOM_destroySession unitOps (⟨[]⟩ : DataObjectManager Unit) "s"
        = Except.error (DfmsError.keyError "s") := by
  have h1 := C1_session_validation unitOps ([] : PyEnv Unit Unit)
    (⟨[]⟩ : NodeManager Unit) (⟨[]⟩ : DataObjectManager Unit)
    "s" "a.b" "l" "r" 0 () [] ()
  have h2 := C1_session_validation unitOps ([] : PyEnv Unit Unit)
    (⟨[("s", ())]⟩ : NodeManager Unit) (⟨[]⟩ : DataObjectManager Unit)
    "s" "a.b" "l" "r" 0 () [] ()
  have hd := h2.2.1 ⟨[]⟩ (by decide)
  exact ⟨(h1.1 rfl).1, hd.1, hd.2.1, (h1.2.2 rfl).2.2⟩

/-- Claim C7, amended: `materializeTemplate` resolves the template by its
fully-qualified name: the name is split on dots, the module named by all
parts but the last is imported, and the last part is taken from it.  An
unknown module fails with `ImportError` and a known module lacking the
function fails with `AttributeError` — there is no `NoTemplate` error kind
in the code.  When the name resolves, the template function is invoked with
the given parameters and the resulting graph spec is added to the named
session via `addGraphSpec`. -/
theorem C7_materializeTemplate_resolution (ops : SessionOps σ γ) (env : PyEnv π γ)
    (nm : NodeManager σ) (tpl sessionId : String) (tplParams : π)
    (hsid : (pyLookup sessionId nm.sessions).isSome = true) :
    (pyLookup (pyJoinDot (pySplitDot tpl).dropLast) env = none →
      NM_materializeTemplate ops env nm tpl sessionId tplParams
        = Except.error (DfmsError.importError (pyJoinDot (pySplitDot tpl).dropLast)))
    ∧ (∀ m last, pyLookup (pyJoinDot (pySplitDot tpl).dropLast) env = some m →
        (pySplitDot tpl).getLast? = some last →
        (pyLookup last m = none →
          NM_materializeTemplate ops env nm tpl sessionId tplParams
            = Except.error (DfmsError.attributeError last))
        ∧ (∀ f, pyLookup last m = some f →
            NM_materializeTemplate ops env nm tpl sessionId tplParams
              = NM_addGraphSpec ops nm sessionId (f tplParams))) := by
  have hcheck : check_session_id nm sessionId = Except.ok () := by
    simp [check_session_id, hsid]
  refine ⟨?_, ?_⟩
  · intro hmod
    simp [NM_materializeTemplate, hcheck, importModule, hmod]
  · intro m last hmod hlast
    constructor
    · intro hattr
      simp [NM_materializeTemplate, hcheck, importModule, hmod, hlast, getattrFn, hattr]
    · intro f hf
      simp [NM_materializeTemplate, hcheck, importModule, hmod, hlast, getattrFn, hf]

/-- Counterexample to C7 as stated: with an empty module environment, the
unresolvable template name `a.b` fails with `ImportError`, not with the
`NoTemplate` error the claim postulates. -/
theorem C7_counterexample :
    NM_materializeTemplate unitOps ([] : PyEnv Unit Unit)
        (⟨[("s", ())]⟩ : NodeManager Unit) "a.b" "s" ()
        = Except.error (DfmsError.importError "a")
    ∧ NM_materializeTemplate unitOps ([] : PyEnv Unit Unit)
        (⟨[("s", ())]⟩ : NodeManager Unit) "a.b" "s" ()
        ≠ Except.error (DfmsError.noTemplate "a.b") := by
  exact ⟨by decide, by decide⟩

/-- Witness for C7 at a concrete environment holding module `a` with
template function `b`: `a.b` resolves and materializes through
`addGraphSpec`; module `a` without attribute `b` yields `AttributeError`. -/
theorem C7_materializeTemplate_witness :
    NM_materializeTemplate unitOps
        ([("a", [("b", fun _ => ())])] : PyEnv Unit Unit)
        (⟨[("s", ())]⟩ : NodeManager Unit) "a.b" "s" ()
        = NM_addGraphSpec unitOps (⟨[("s", ())]⟩ : NodeManager Unit) "s" ()
    ∧ NM_materializeTemplate unitOps
        ([("a", [("c", fun _ => ())])] : PyEnv Unit Unit)
        (⟨[("s", ())]⟩ : NodeManager Unit) "a.b" "s" ()
        = Except.error (DfmsError.attributeError "b") := by
  have h1 := C7_materializeTemplate_resolution unitOps
    ([("a", [("b", fun _ => ())])] : PyEnv Unit Unit)
    (⟨[("s", ())]⟩ : NodeManager Unit) "a.b" "s" () (by decide)
  have h2 := C7_materializeTemplate_resolution unitOps
    ([("a", [("c", fun _ => ())])] : PyEnv Unit Unit)
    (⟨[("s", ())]⟩ : NodeManager Unit) "a.b" "s" () (by decide)
  refine ⟨(h1.2 [("b", fun _ => ())] "b" rfl (by decide)).2 (fun _ => ()) rfl, ?_⟩
  exact (h2.2 [("c", fun _ => ())] "b" rfl (by decide)).1 rfl

/-- Mapping an indexed lookup over `pyEnumerate` is zipping with the lookups
of the successive indices. -/
theorem pyEnumerate_map_getElem (l : List String) (q : List α) (n : Nat) :
    (pyEnumerate n l).map (fun p => TplArg.mk p.2 q[p.1]?) =
      l.zipWith (fun a o => TplArg.mk a o)
        ((List.range l.length).map (fun j => q[n + j]?)) := by
  induction l generalizing n with
  | nil => rfl
  | cons a l ih =>
    simp only [pyEnumerate, List.map_cons, List.length_cons,
      List.range_succ_eq_map, List.map_map, List.zipWith_cons_cons]
    rw [ih (n + 1)]
    congr 1
    apply congrArg
    apply List.map_congr_left
    intro j _
    show q[n + 1 + j]? = q[n + (j + 1)]?
    rw [show n + 1 + j = n + (j + 1) by omega]

/-- The optional defaults of the successive indices of a list `q`, taken up
to a bound `k ≥ q.length`, are `q` mapped under `some` padded with
`none`. -/
theorem map_some_append_replicate (q : List α) (k : Nat) (h : q.length ≤ k) :
    q.map some ++ List.replicate (k - q.length) none =
      (List.range k).map (fun j => q[j]?) := by
  induction q generalizing k with
  | nil =>
    simp only [List.map_nil, List.nil_append, List.length_nil, Nat.sub_zero,
      List.getElem?_nil]
    rw [List.map_const', List.length_range]
  | cons a q ih =>
    cases k with
    | zero => exact absurd h (by simp)
    | succ k' =>
      have h' : q.length ≤ k' := by simpa using h
      simp only [List.map_cons, List.length_cons, Nat.succ_sub_succ,
        List.cons_append, List.range_succ_eq_map, List.map_map]
      rw [ih k' h']
      congr 1
      · simp
      · apply List.map_congr_left
        intro j _
        show q[j]? = (a :: q)[j + 1]?
        rw [List.getElem?_cons_succ]

/-- Claim C8: For a template function with `m` declared arguments whose last
`d ≤ m` carry defaults, `_functionAsTemplate` yields the name
`module + "." + function` and an args list that pairs each argument with its
declared default (the trailing `d` of the declaration) or with no default
(the leading `m - d`); the list carries all `m` argument names, in reverse
declaration order. -/
theorem C8_functionAsTemplate (moduleName funcName : String)
    (args : List String) (defaults : List α)
    (h : defaults.length ≤ args.length) :
    functionAsTemplate moduleName funcName args defaults =
      ⟨moduleName ++ "." ++ funcName,
        ((args.zip (List.replicate (args.length - defaults.length) none
            ++ defaults.map some)).map
          (fun p => TplArg.mk p.1 p.2)).reverse⟩ := by
  have hlenP : args.length =
      (List.replicate (args.length - defaults.length) (none : Option α)
        ++ defaults.map some).length := by
    simp only [List.length_append, List.length_replicate, List.length_map]
    omega
  have hmatch :
      ((pyEnumerate 0 args.reverse).map (fun p =>
        match (defaults.reverse)[p.1]? with
        | none => TplArg.mk p.2 none
        | some d => TplArg.mk p.2 (some d))) =
      ((pyEnumerate 0 args.reverse).map (fun p =>
        TplArg.mk p.2 (defaults.reverse)[p.1]?)) := by
    apply List.map_congr_left
    intro p _
    cases (defaults.reverse)[p.1]? <;> rfl
  simp only [functionAsTemplate]
  congr 1
  rw [hmatch, pyEnumerate_map_getElem]
  have hzero : ((List.range args.reverse.length).map
        (fun j => (defaults.reverse)[0 + j]?)) =
      ((List.range args.reverse.length).map (fun j => (defaults.reverse)[j]?)) := by
    apply List.map_congr_left
    intro j _
    rw [Nat.zero_add]
  rw [hzero, List.length_reverse]
  rw [← map_some_append_replicate defaults.reverse args.length
    (by rw [List.length_reverse]; exact h)]
  rw [List.zip_eq_zipWith, List.map_zipWith,
    List.reverse_zipWith hlenP]
  simp only [List.reverse_append, List.reverse_replicate, List.map_reverse,
    List.length_reverse]

/-- Witness for C8 at a concrete three-argument declaration with two
trailing defaults. -/
theorem C8_functionAsTemplate_witness :
    ([(2 : Nat), 7].length ≤ ["x", "y", "z"].length)
    ∧ functionAsTemplate "mod" "f" ["x", "y", "z"] [(2 : Nat), 7] =
        ⟨"mod.f", [TplArg.mk "z" (some 7), TplArg.mk "y" (some 2),
                   TplArg.mk "x" none]⟩ := by
  refine ⟨by decide, ?_⟩
  rw [C8_functionAsTemplate "mod" "f" ["x", "y", "z"] [(2 : Nat), 7] (by decide)]
  decide

/-- Claim C3: In every `DynlibApp.run`: every input is opened before the
native `run` entry point is invoked and every opened descriptor is closed
after it, the close events being the same whatever the native run's outcome
(the `finally` block runs also when the native run raises, and the exception
is then propagated as the result); the C input structures handed to the
native code route `read` through the owning drop's `read` with the
descriptor obtained from its `open`; and the C output structures route
`write` through the owning drop's `write` on the first `n` bytes of the
buffer. -/
theorem C3_dynlib_io_routing (inputs : List InDrop)
    (native native' : List CDlgInput → Except String Unit) :
    (DynlibApp_run inputs native).2 =
      inputs.map (fun i => IOEv.openEv i.uid i.openD)
        ++ [IOEv.runNative]
        ++ inputs.map (fun i => IOEv.closeEv i.uid i.openD)
    ∧ (DynlibApp_run inputs native').2 = (DynlibApp_run inputs native).2
    ∧ (DynlibApp_run inputs native).1 =
        native (inputs.map (fun i => to_c_input i i.openD))
    ∧ (∀ i : InDrop, ∀ desc n : Nat, (to_c_input i desc).read n = i.readD desc n
        ∧ (to_c_input i desc).uid = i.uid ∧ (to_c_input i desc).oid = i.oid
        ∧ (to_c_input i desc).name = i.name ∧ (to_c_input i desc).status = i.status)
    ∧ (∀ o : OutDrop, ∀ buf : List Nat, ∀ n : Nat,
        (to_c_output o).write buf n = o.write (buf.take n)
        ∧ (to_c_output o).uid = o.uid ∧ (to_c_output o).oid = o.oid
        ∧ (to_c_output o).name = o.name) := by
  refine ⟨?_, ?_, ?_, ?_, ?_⟩
  · simp only [DynlibApp_run, List.map_map]
    rfl
  · simp [DynlibApp_run]
  · simp only [DynlibApp_run, List.map_map]
    rfl
  · intro i desc n
    exact ⟨rfl, rfl, rfl, rfl, rfl⟩
  · intro o buf n
    exact ⟨rfl, rfl, rfl, rfl⟩

/-- Claim C4: `DynlibAppBase.initialize` fails with the invalid-library error
(`InvalidDropException`, the spec's `InvalidLibrary`) exactly when the `lib`
parameter is missing, the loaded shared object lacks the `init` or `run`
entry point, or the library's `init` call on the remaining parameters
returns nonzero; with `init` and `run` present and `init` returning zero,
initialization succeeds irrespective of the `data_written` and
`drop_completed` entry points, which are not required. -/
theorem C4_dynlib_initialization (kwargs : List (String × String))
    (find_library : String → Option String)
    (loadLibrary : String → Option PyLib) :
    (isInvalidLibraryErr (dynlibInit kwargs find_library loadLibrary) = true ↔
      pyLookup "lib" kwargs = none
      ∨ (∃ libname l, pyLookup "lib" kwargs = some libname
          ∧ loadLibrary ((find_library libname).getD libname) = some l
          ∧ (l.hasInit = false ∨ l.hasRun = false
              ∨ l.initFn (pyPop "lib" kwargs) ≠ 0)))
    ∧ (∀ libname l, pyLookup "lib" kwargs = some libname →
        loadLibrary ((find_library libname).getD libname) = some l →
        l.hasInit = true → l.hasRun = true →
        l.initFn (pyPop "lib" kwargs) = 0 →
        dynlibInit kwargs find_library loadLibrary = Except.ok l) := by
  constructor
  · cases hlib : pyLookup "lib" kwargs with
    | none => simp [dynlibInit, hlib, isInvalidLibraryErr]
    | some libname =>
      cases hload : loadLibrary ((find_library libname).getD libname) with
      | none => simp [dynlibInit, hlib, hload, isInvalidLibraryErr]
      | some l =>
        by_cases hinit : l.hasInit = false
        · simp [dynlibInit, hlib, hload, hinit, isInvalidLibraryErr]
        · by_cases hrun : l.hasRun = false
          · simp [dynlibInit, hlib, hload, hinit, hrun, isInvalidLibraryErr]
          · by_cases hzero : l.initFn (pyPop "lib" kwargs) = 0
            · simp [dynlibInit, hlib, hload, hinit, hrun, hzero, isInvalidLibraryErr]
            · simp [dynlibInit, hlib, hload, hinit, hrun, hzero, isInvalidLibraryErr]
  · intro libname l hlib hload hinit hrun hzero
    simp [dynlibInit, hlib, hload, hinit, hrun, hzero]

/-- Witness for C4: a library exposing only `init` and `run` (both optional
entry points absent) with `init` returning zero initializes successfully;
with the library parameter missing, initialization fails with the
invalid-library error. -/
theorem C4_dynlib_initialization_witness :
    dynlibInit [("lib", "x"), ("k", "v")] (fun _ => none)
        (fun s => if s = "x" then some (PyLib.mk true true false false (fun _ => 0))
                  else none)
      = Except.ok (PyLib.mk true true false false (fun _ => 0))
    ∧ isInvalidLibraryErr (dynlibInit [] (fun _ => none) (fun _ => none)) = true := by
  have h1 := C4_dynlib_initialization [("lib", "x"), ("k", "v")] (fun _ => none)
    (fun s => if s = "x" then some (PyLib.mk true true false false (fun _ => 0))
              else none)
  have h2 := C4_dynlib_initialization [] (fun _ => none) (fun _ => none)
  refine ⟨h1.2 "x" (PyLib.mk true true false false (fun _ => 0)) rfl rfl rfl rfl rfl, ?_⟩
  exact h2.1.mpr (Or.inl rfl)

/-- Folding `addOutput` over a list of output drops appends their C
structures, keeps `app.outputs` pointing at the backing array and advances
`n_outputs` by the number of drops, from any state whose fields are already
consistent. -/
theorem addOutput_foldl (os : List OutDrop) (st : CDlgAppOutputs)
    (hout : st.outputs = st.c_outputs) (hlen : st.n_outputs = st.c_outputs.length) :
    (os.foldl addOutput st).c_outputs = st.c_outputs ++ os.map to_c_output
    ∧ (os.foldl addOutput st).outputs = (os.foldl addOutput st).c_outputs
    ∧ (os.foldl addOutput st).n_outputs = st.n_outputs + os.length := by
  induction os generalizing st with
  | nil => simp [hout, hlen]
  | cons o os ih =>
    have hstep : addOutput st o =
        ⟨st.c_outputs ++ [to_c_output o], st.c_outputs ++ [to_c_output o],
         st.n_outputs + 1⟩ := by
      unfold addOutput
      by_cases h0 : st.n_outputs = 0
      · have hnil : st.c_outputs = [] := by
          rw [h0] at hlen
          exact List.length_eq_zero.mp hlen.symm
        simp [h0, hnil]
      · simp [h0]
    rw [List.foldl_cons, hstep]
    have hrec := ih ⟨st.c_outputs ++ [to_c_output o],
      st.c_outputs ++ [to_c_output o], st.n_outputs + 1⟩ rfl (by simp [hlen])
    refine ⟨?_, hrec.2.1, ?_⟩
    · rw [hrec.1]; simp
    · rw [hrec.2.2]; simp [List.length_cons]; omega

/-- Claim C10: After any sequence of `addOutput` calls from the initialized
state, the C application structure agrees with the Python-side output list:
`n_outputs` is the number of outputs added, `app.outputs` is the backing
array of exactly that length, and its `k`-th element is the C structure of
the `k`-th added drop — carrying its `uid`, `oid` and `name` and a `write`
callback depositing the first `n` buffer bytes into that drop's `write`. -/
theorem C10_addOutput_consistency (os : List OutDrop) :
    (os.foldl addOutput initOutputsState).n_outputs = os.length
    ∧ (os.foldl addOutput initOutputsState).outputs
        = (os.foldl addOutput initOutputsState).c_outputs
    ∧ (os.foldl addOutput initOutputsState).outputs.length
        = (os.foldl addOutput initOutputsState).n_outputs
    ∧ (∀ k : Nat, (os.foldl addOutput initOutputsState).outputs[k]?
        = (os[k]?).map to_c_output)
    ∧ (∀ o : OutDrop, ∀ buf : List Nat, ∀ n : Nat,
        (to_c_output o).uid = o.uid ∧ (to_c_output o).oid = o.oid
        ∧ (to_c_output o).name = o.name
        ∧ (to_c_output o).write buf n = o.write (buf.take n)) := by
  have h := addOutput_foldl os initOutputsState rfl rfl
  have hc : (os.foldl addOutput initOutputsState).c_outputs = os.map to_c_output := by
    rw [h.1]; simp [initOutputsState]
  have hn : (os.foldl addOutput initOutputsState).n_outputs = os.length := by
    rw [h.2.2]; simp [initOutputsState]
  refine ⟨hn, h.2.1, ?_, ?_, ?_⟩
  · rw [h.2.1, hc, hn, List.length_map]
  · intro k
    rw [h.2.1, hc, List.getElem?_map]
  · intro o buf n
    exact ⟨rfl, rfl, rfl, rfl⟩

/-- Claim C5: For each manager kind, a daemon REST start request while a child
of that kind is recorded answers HTTP 409 Conflict, changes nothing and
spawns nothing; with no child recorded, it spawns exactly one child and
records its pid (for the data-island kind, given a request body carrying the
nodes list). -/
theorem C5_daemon_duplicate_start (d : DaemonProcs) (newPid : Nat)
    (nodes : List String) :
    (∀ p, d.nm_proc = some p → rest_startNM d newPid = (d, some 409, []))
    ∧ (d.nm_proc = none →
        rest_startNM d newPid = ({ d with nm_proc := some newPid }, none, [newPid]))
    ∧ (∀ p, d.dim_proc = some p →
        rest_startDIM d (some nodes) newPid = (d, some 409, []))
    ∧ (d.dim_proc = none →
        rest_startDIM d (some nodes) newPid
          = ({ d with dim_proc := some newPid }, none, [newPid]))
    ∧ (∀ p, d.mm_proc = some p → rest_startMM d newPid = (d, some 409, []))
    ∧ (d.mm_proc = none →
        rest_startMM d newPid = ({ d with mm_proc := some newPid }, none, [newPid])) := by
  obtain ⟨nm, dim, mm⟩ := d
  refine ⟨?_, ?_, ?_, ?_, ?_, ?_⟩ <;> intro h <;> try intro hh
  all_goals simp_all [rest_startNM, rest_startDIM, rest_startMM, rest_start_manager]

/-- Witness for C5: a daemon with a recorded node manager refuses a second
start with 409; one without spawns and records the new pid. -/
theorem C5_daemon_duplicate_start_witness :
    rest_startNM (DaemonProcs.mk (some 41) none none) 99
        = (DaemonProcs.mk (some 41) none none, some 409, [])
    ∧ rest_startNM (DaemonProcs.mk none none none) 99
        = (DaemonProcs.mk (some 99) none none, none, [99])
    ∧ rest_startDIM (DaemonProcs.mk none (some 42) none) (some ["n1"]) 99
        = (DaemonProcs.mk none (some 42) none, some 409, []) := by
  have h1 := C5_daemon_duplicate_start (DaemonProcs.mk (some 41) none none) 99 []
  have h2 := C5_daemon_duplicate_start (DaemonProcs.mk none none none) 99 []
  have h3 := C5_daemon_duplicate_start (DaemonProcs.mk none (some 42) none) 99 ["n1"]
  exact ⟨h1.1 41 rfl, h2.2.1 rfl, h3.2.2.1 42 rfl⟩

/-- Claim C6: On daemon shutdown every recorded child manager receives, in
order, SIGTERM (`terminate()`), a join with the 10-second grace timeout,
and — only when still alive afterwards — SIGKILL followed by an untimed
join; SIGKILL occurs in the trace exactly when the child survived the grace
period; stopping a kind with no recorded process is a no-op; and each child
process target installs the default SIGINT/SIGTERM handlers before running
the manager command line, so children do not inherit the daemon's
handlers. -/
theorem C6_daemon_shutdown (p : ChildProc) (d : DaemonChildren) (t : Nat) :
    stop_manager none t = (none, [])
    ∧ stop_manager (some p) t =
        (none, [SigEv.sigterm p.pid, SigEv.join p.pid (some t)]
          ++ (if p.aliveAfterTerm then [SigEv.sigkill p.pid, SigEv.join p.pid none]
              else []))
    ∧ (SigEv.sigkill p.pid ∈ (stop_manager (some p) t).2 ↔ p.aliveAfterTerm = true)
    ∧ daemon_stop d =
        ((⟨(stop_manager d.nm_proc 10).1, (stop_manager d.dim_proc 10).1,
           (stop_manager d.mm_proc 10).1⟩ : DaemonChildren),
         (stop_manager d.nm_proc 10).2 ++ (stop_manager d.dim_proc 10).2
           ++ (stop_manager d.mm_proc 10).2)
    ∧ startNM_child_target =
        [ChildStep.stopRestServer, ChildStep.installDefaultSigintHandler,
         ChildStep.installDefaultSigtermHandler, ChildStep.runManagerCmdline "nm"]
    ∧ startDIM_child_target =
        [ChildStep.stopRestServer, ChildStep.installDefaultSigintHandler,
         ChildStep.installDefaultSigtermHandler, ChildStep.runManagerCmdline "dim"]
    ∧ startMM_child_target =
        [ChildStep.stopRestServer, ChildStep.installDefaultSigintHandler,
         ChildStep.installDefaultSigtermHandler, ChildStep.runManagerCmdline "mm"] := by
  refine ⟨rfl, rfl, ?_, rfl, rfl, rfl, rfl⟩
  cases halive : p.aliveAfterTerm <;> simp [stop_manager, halive]

/-- Claim C9, amended: At the CLI layer, normal completion exits with code 0;
a configuration error (mutually exclusive options such as daemon with stop,
or verbose with quiet) exits with code 2 through `optparse`'s
`parser.error`; a runtime error surfaces as an uncaught exception, on which
the interpreter exits with code 1; and the `--status` check exits 0 when the
port is listening and 1 otherwise. -/
theorem C9_cli_exit_codes (o : CmdOptions) (portListening : Bool)
    (server : ServerRun) :
    ((o.daemon && o.stop) = true ∨ (o.daemon && o.status) = true
      ∨ (o.stop && o.status) = true
      ∨ (decide (o.verbose ≠ 0) && decide (o.quiet ≠ 0)) = true →
      start o portListening server = CliOutcome.exited 2)
    ∧ (commonOptionsCheck o = Except.ok () → o.daemon = false → o.stop = false →
        o.status = false →
        start o portListening server = launchOutcome server
        ∧ (server = ServerRun.completes →
            start o portListening server = CliOutcome.completed)
        ∧ (server = ServerRun.raises →
            start o portListening server = CliOutcome.exited 1))
    ∧ (commonOptionsCheck o = Except.ok () → o.daemon = false → o.stop = false →
        o.status = true →
        start o portListening server
          = CliOutcome.exited (if portListening then 0 else 1)) := by
  refine ⟨?_, ?_, ?_⟩
  · intro h
    have hck : commonOptionsCheck o = Except.error 2 := by
      unfold commonOptionsCheck parser_error
      split_ifs with h1 h2 h3 h4
      · rfl
      · rfl
      · rfl
      · rfl
      · rcases h with h | h | h | h <;> simp_all
    unfold start
    rw [hck]
  · intro hok hd hs hst
    refine ⟨by simp [start, hok, hd, hs, hst], ?_, ?_⟩
    · intro hsrv
      simp [start, hok, hd, hs, hst, hsrv, launchOutcome]
    · intro hsrv
      simp [start, hok, hd, hs, hst, hsrv, launchOutcome]
  · intro hok hd hs hst
    simp [start, hok, hd, hs, hst]

/-- Counterexample to C9 as stated: the configuration error of giving
`--daemon` and `--stop` together exits with code 2, not with the code 1 the
claim requires. -/
theorem C9_counterexample :
    start (CmdOptions.mk true true false 0 0) false ServerRun.completes
        = CliOutcome.exited 2
    ∧ start (CmdOptions.mk true true false 0 0) false ServerRun.completes
        ≠ CliOutcome.exited 1 := by
  exact ⟨by decide, by decide⟩

/-- Witness for C9 at concrete option sets: a plain launch completes
normally (exit 0); a raising launch exits 1; the status check exits 0 on a
listening port. -/
theorem C9_cli_exit_codes_witness :
    start (CmdOptions.mk false false false 0 0) false ServerRun.completes
        = CliOutcome.completed
    ∧ start (CmdOptions.mk false false false 0 0) false ServerRun.raises
        = CliOutcome.exited 1
    ∧ start (CmdOptions.mk false false true 0 0) true ServerRun.completes
        = CliOutcome.exited 0
    ∧ start (CmdOptions.mk true true false 0 0) false ServerRun.completes
        = CliOutcome.exited 2 := by
  have h1 := C9_cli_exit_codes (CmdOptions.mk false false false 0 0) false
    ServerRun.completes
  have h2 := C9_cli_exit_codes (CmdOptions.mk false false false 0 0) false
    ServerRun.raises
  have h3 := C9_cli_exit_codes (CmdOptions.mk false false true 0 0) true
    ServerRun.completes
  have h4 := C9_cli_exit_codes (CmdOptions.mk true true false 0 0) false
    ServerRun.completes
  exact ⟨(h1.2.1 rfl rfl rfl rfl).2.1 rfl, (h2.2.1 rfl rfl rfl rfl).2.2 rfl,
    h3.2.2 rfl rfl rfl rfl, h4.1 (Or.inl rfl)⟩

end Daliuge
